import Mathlib

/-!
Verification of the homebridge-bose-soundtouch device-communication layer.

The development embeds the three core components of the repository —
the HTTP/XML protocol client (`src/soundtouchClient.ts`), the push
event-stream client (`src/soundtouchWebSocket.ts`) and the mDNS
discovery component (`src/discovery.ts`) — as executable Lean
definitions, and proves the spec's claims about them.

Modelling conventions:
* xml2js parse results (with `explicitArray: false`) are modelled by
  the `JVal` type: a string leaf, an array, or an object with string
  keys; attribute maps live under the key `"$"`, element text under
  `"_"`, exactly as xml2js produces them.
* JavaScript property access `x.k` on a non-object yields `undefined`
  (modelled as `none`); property access on `undefined` itself throws,
  which decoders model by returning `none` / `Except.error`.
* Network I/O is modelled by an oracle `net : Request → Except String
  JVal` giving, per request, either the parsed XML response or a
  failure (transport error, non-2xx status, or XML parse failure all
  reject the surrounding call in the source, so they are merged).
* Each client operation is embedded as a function returning the list
  of HTTP requests it issues, in order, together with its outcome.
* JavaScript numbers reaching `Math.round` are modelled as rationals.
-/

/-- Parsed XML documents as produced by xml2js with `explicitArray:
false`: a string leaf, an array of repeated children, or an object. -/
inductive JVal where
  | str : String → JVal
  | arr : List JVal → JVal
  | obj : List (String × JVal) → JVal

/-- Field lookup in an object's field list (first match wins). -/
def jfind : List (String × JVal) → String → Option JVal
  | [], _ => none
  | (k', v) :: rest, k => if k' = k then some v else jfind rest k

/-- JavaScript property access `x.k`: a field of an object, and
`undefined` on strings and arrays (no throw). -/
def jget : JVal → String → Option JVal
  | .obj fs, k => jfind fs k
  | _, _ => none

/-- Property access returning the value only when it is a string leaf. -/
def jgetStr (v : JVal) (k : String) : Option String :=
  match jget v k with
  | some (.str s) => some s
  | _ => none

/-- JavaScript truthiness of a possibly-undefined value: `undefined`
and the empty string are falsy; every object and array is truthy. -/
def jsTruthy : Option JVal → Bool
  | none => false
  | some (.str s) => !(s = "")
  | some (.arr _) => true
  | some (.obj _) => true

/-- The `Array.isArray(x) ? x : [x]` normalization applied by every
decoder of a repeated element. -/
def toItems : JVal → List JVal
  | .arr l => l
  | v => [v]

/-- Leading-digits integer parsing, modelling `parseInt(s, 10)` on its
already-trimmed inputs; `none` stands for `NaN`. -/
def parseIntCore (sign : Int) (cs : List Char) : Option Int :=
  let digits := cs.takeWhile (fun c => c.isDigit)
  if digits = [] then none
  else some (sign * (String.mk digits).toNat!)

/-- Model of `parseInt(x, 10)` on a possibly-undefined string. -/
def parseIntJS : Option String → Option Int
  | none => none
  | some s =>
    match s.data with
    | '-' :: rest => parseIntCore (-1) rest
    | '+' :: rest => parseIntCore 1 rest
    | cs => parseIntCore 1 cs

/-- HTTP method of a client request. -/
inductive Method where
  | GET : Method
  | POST : Method
deriving DecidableEq

/-- One HTTP request issued by the protocol client: method, path and
optional XML body. -/
structure Request where
  method : Method
  path : String
  body : Option String
deriving DecidableEq

/-- The network oracle: a parsed XML response, or a failure (transport
error, non-2xx status or unparsable body all reject the call). -/
def Net : Type := Request → Except String JVal

/-- Success test on a request's outcome. -/
def exOk : Except String JVal → Bool
  | .ok _ => true
  | .error _ => false

/-! ## setVolume (src/soundtouchClient.ts lines 269-272) -/

/-- Model of `Math.round` on a rational: round half toward positive infinity. -/
def jsRound (q : ℚ) : ℤ := ⌊q + 1 / 2⌋

/-- The level actually encoded by `setVolume`:
`Math.max(0, Math.min(100, Math.round(level)))`. -/
def encodeVolumeLevel (q : ℚ) : ℤ := max 0 (min 100 (jsRound q))

/-- The XML body `setVolume` POSTs to `/volume`. -/
def setVolumeBody (q : ℚ) : String :=
  "<volume>" ++ toString (encodeVolumeLevel q) ++ "</volume>"

/-- The request trace of `setVolume` together with its outcome. -/
def setVolumeRun (net : Net) (q : ℚ) : List Request × Option String :=
  let r : Request := ⟨.POST, "/volume", some (setVolumeBody q)⟩
  match net r with
  | .error e => ([r], some e)
  | .ok _ => ([r], none)

/-! ## pressKey (src/soundtouchClient.ts lines 309-314) -/

/-- The `/key` body `<key state="..." sender="Gabbo">KEY</key>`. -/
def keyXml (state key : String) : String :=
  "<key state=\"" ++ state ++ "\" sender=\"Gabbo\">" ++ key ++ "</key>"

/-- The press-phase request of a momentary key press. -/
def pressReq (key : String) : Request := ⟨.POST, "/key", some (keyXml "press" key)⟩

/-- The release-phase request of a momentary key press. -/
def releaseReq (key : String) : Request := ⟨.POST, "/key", some (keyXml "release" key)⟩

/-- The request trace of `pressKey`: POST the press event, await it,
and only on success POST the release event for the same key. -/
def pressKeyRun (net : Net) (key : String) : List Request × Option String :=
  match net (pressReq key) with
  | .error e => ([pressReq key], some e)
  | .ok _ =>
    match net (releaseReq key) with
    | .error e => ([pressReq key, releaseReq key], some e)
    | .ok _ => ([pressReq key, releaseReq key], none)

/-! ## getVolume / setMute (src/soundtouchClient.ts lines 254-267, 362-367) -/

/-- Decoded `/volume` response; `none` levels stand for `NaN`. -/
structure VolumeT where
  targetvolume : Option Int
  actualvolume : Option Int
  muteenabled : Bool
deriving DecidableEq

/-- The GET issued by `getVolume`. -/
def volumeGetReq : Request := ⟨.GET, "/volume", none⟩

/-- Decoding of a `/volume` response: fails (property access on
`undefined` throws) only when the `volume` element is absent;
`muteenabled` is the strict comparison against the string `true`. -/
def decodeVolume (j : JVal) : Option VolumeT :=
  match jget j "volume" with
  | none => none
  | some v =>
    some ⟨parseIntJS (jgetStr v "targetvolume"),
          parseIntJS (jgetStr v "actualvolume"),
          jgetStr v "muteenabled" == some "true"⟩

/-- The request trace of `setMute`: query `/volume` first, then press
the MUTE key (press + release) only when the decoded mute flag differs
from the desired one. -/
def setMuteRun (net : Net) (muted : Bool) : List Request × Option String :=
  match net volumeGetReq with
  | .error e => ([volumeGetReq], some e)
  | .ok j =>
    match decodeVolume j with
    | none => ([volumeGetReq], some "decode error")
    | some v =>
      if v.muteenabled ≠ muted then
        let r := pressKeyRun net "MUTE"
        (volumeGetReq :: r.1, r.2)
      else ([volumeGetReq], none)

/-- Number of MUTE toggle commands in a request trace, counted by
press-phase requests for the MUTE key. -/
def mutePressCount (tr : List Request) : Nat :=
  (tr.filter (fun r => r = pressReq "MUTE")).length

/-! ## ContentItem encode/decode
(src/soundtouchClient.ts lines 194-252, 377-415, 588-611) -/

/-- The client-side `ContentItem` record, fields as the now-playing
decoder produces them (absent XML parts decode to `none`). -/
structure ContentItem where
  source : Option String
  type : Option String
  location : Option String
  sourceAccount : Option String
  isPresetable : Option Bool
  name : Option String
deriving DecidableEq

/-- Decoding of a `ContentItem` element as `getNowPlaying` and
`getPresets` do: attributes from `$`, display name from `itemName`,
`isPresetable` compared against the string `true`; a missing attribute
map makes the whole call throw. -/
def decodeContentItem (ci : JVal) : Option ContentItem :=
  match jget ci "$" with
  | none => none
  | some d =>
    some ⟨jgetStr d "source",
          jgetStr d "type",
          jgetStr d "location",
          jgetStr d "sourceAccount",
          some (jgetStr d "isPresetable" == some "true"),
          jgetStr ci "itemName"⟩

/-- The xml2js object `playContent` builds and POSTs to `/select`:
attributes `source`, `location`, `sourceAccount`, `isPresetable="true"`
(no `type` attribute), plus an `itemName` child only when the name
argument is truthy. -/
def playContentObj (source location sourceAccount name : String) : JVal :=
  JVal.obj [("ContentItem",
    JVal.obj (("$", JVal.obj
        [("source", .str source),
         ("location", .str location),
         ("sourceAccount", .str sourceAccount),
         ("isPresetable", .str "true")]) ::
      (if name = "" then [] else [("itemName", JVal.str name)])))]

/-- Decoding a `/select` payload with the repository's ContentItem
decoder (the shape `getNowPlaying` reads under `nowPlaying`). -/
def decodeSelectPayload (j : JVal) : Option ContentItem :=
  (jget j "ContentItem").bind decodeContentItem

/-! ## getPresets / getSources (src/soundtouchClient.ts lines 377-448) -/

/-- Decoded preset slot; `id` is `none` when `parseInt` gives `NaN`. -/
structure PresetT where
  id : Option Int
  contentItem : ContentItem
deriving DecidableEq

/-- One entry of the `/presets` list. -/
def decodePresetItem (p : JVal) : Option PresetT :=
  match jget p "$" with
  | none => none
  | some d =>
    match jget p "ContentItem" with
    | none => none
    | some ci =>
      (decodeContentItem ci).map (fun c => ⟨parseIntJS (jgetStr d "id"), c⟩)

/-- Decoding of a `/presets` response: a falsy `preset` member yields
the empty list; otherwise the singular-vs-array shape is normalized
and each entry decoded, any entry's failure failing the call. -/
def decodePresetsResp (j : JVal) : Option (List PresetT) :=
  match jget j "presets" with
  | none => none
  | some ps =>
    if jsTruthy (jget ps "preset") then
      (toItems ((jget ps "preset").getD (.str ""))).mapM decodePresetItem
    else
      some []

/-- Decoded `/sources` entry. -/
structure SourceT where
  source : Option String
  sourceAccount : Option String
  status : Option String
  isLocal : Bool
  multiroomAllowed : Bool
deriving DecidableEq

/-- One entry of the `/sources` list. -/
def decodeSourceItem (p : JVal) : Option SourceT :=
  (jget p "$").map (fun d =>
    ⟨jgetStr d "source",
     jgetStr d "sourceAccount",
     jgetStr d "status",
     jgetStr d "isLocal" == some "true",
     jgetStr d "multiroomallowed" == some "true"⟩)

/-- Decoding of a `/sources` response: a falsy `sourceItem` member
yields the empty list, mirroring `decodePresetsResp`. -/
def decodeSourcesResp (j : JVal) : Option (List SourceT) :=
  match jget j "sources" with
  | none => none
  | some ss =>
    if jsTruthy (jget ss "sourceItem") then
      (toItems ((jget ss "sourceItem").getD (.str ""))).mapM decodeSourceItem
    else
      some []

/-! ## Discovery (src/discovery.ts) -/

/-- An mDNS service announcement as `bonjour-service` delivers it:
advertised instance name, advertised hostname, optional address list,
optional port, optional MAC from the TXT record. -/
structure Service where
  name : String
  host : String
  addresses : Option (List String)
  port : Option Nat
  mac : Option String

/-- A discovered device entry. -/
structure DiscoveredDevice where
  name : String
  host : String
  port : Nat
  mac : Option String
deriving DecidableEq

/-- Model of `service.port || 8090`: JavaScript `||` replaces both a missing
and a zero port by the default. -/
def jsOrPort : Option Nat → Nat
  | none => 8090
  | some n => if n = 0 then 8090 else n

/-- Character containment in a string, modelling `addr.includes(':')`
for a single-character needle. -/
def containsChar (s : String) (c : Char) : Bool :=
  s.data.any (fun x => x == c)

/-- The host picked from a non-empty address list:
`addresses.find(a => !a.includes(':')) || addresses[0]` — the first
colon-free address, else (also when the found address is the falsy
empty string) the first address. The hostname is never consulted. -/
def selectHost (addrs : List String) : String :=
  match addrs.find? (fun a => !(containsChar a ':')) with
  | some s => if s = "" then addrs.headD "" else s
  | none => addrs.headD ""

/-- Model of `handleServiceUp`: skip services with no addresses, select a host,
and register/report the device unless its `host:port` key is already
tracked. Returns the new device map and the reported device, if any. -/
def handleServiceUp (devices : List (String × DiscoveredDevice)) (s : Service) :
    List (String × DiscoveredDevice) × Option DiscoveredDevice :=
  match s.addresses with
  | none => (devices, none)
  | some [] => (devices, none)
  | some (a :: rest) =>
    let host := selectHost (a :: rest)
    let port := jsOrPort s.port
    let d : DiscoveredDevice := ⟨s.name, host, port, s.mac⟩
    let key := host ++ ":" ++ toString port
    if (devices.lookup key).isSome then (devices, none)
    else ((key, d) :: devices, some d)

/-- One service callback of `discoverOnce`: same address selection,
deduplicated by host and port against the accumulated list. -/
def discoverOnceStep (acc : List DiscoveredDevice) (s : Service) :
    List DiscoveredDevice :=
  match s.addresses with
  | none => acc
  | some [] => acc
  | some (a :: rest) =>
    let host := selectHost (a :: rest)
    let port := jsOrPort s.port
    let d : DiscoveredDevice := ⟨s.name, host, port, s.mac⟩
    if acc.any (fun x => x.host == host && x.port == port) then acc
    else acc ++ [d]

/-! ## Push-frame decoding (src/soundtouchWebSocket.ts lines 156-249)

`handleMessage` parses each inbound frame and runs six independent
update blocks inside one `try`; a block that throws (property access
on `undefined`) aborts the remaining blocks, but events already
emitted stand, and a parse failure emits nothing. Nothing in
`handleMessage` touches the connection fields. -/

/-- Decoded `nowPlayingUpdated` payload. -/
structure NowPlayingU where
  source : Option String
  sourceAccount : Option String
  track : Option String
  artist : Option String
  album : Option String
  stationName : Option String
  art : Option String
  playStatus : Option String
  shuffleSetting : Option String
  repeatSetting : Option String
deriving DecidableEq

/-- Decoded entry of a `presetsUpdated` payload. -/
structure PresetLite where
  id : Option Int
  name : Option String
  source : Option String
deriving DecidableEq

/-- Decoded entry of a `zoneUpdated` member list. -/
structure ZoneMemberU where
  ipaddress : Option String
  macaddress : Option String
deriving DecidableEq

/-- One event emitted by the push stream's message handler. -/
inductive PushEvent where
  | volumeUpdated (target actual : Option Int) (mute : Bool)
  | nowPlayingUpdated (np : NowPlayingU)
  | presetUpdated (presets : List PresetLite)
  | zoneUpdated (master : Option String) (members : List ZoneMemberU)
  | bassUpdated (target actual : Option Int)
  | connectionStateUpdated (state : Option String) (up : Bool)
deriving DecidableEq

/-- The `volumeUpdated` block: truthy wrapper, then
`updates.volumeUpdated.volume` must exist or the block throws. -/
def volumeBlock (u : JVal) : Except Unit (Option PushEvent) :=
  let vu := jget u "volumeUpdated"
  if jsTruthy vu then
    match vu.bind (fun x => jget x "volume") with
    | none => .error ()
    | some v =>
      .ok (some (.volumeUpdated
        (parseIntJS (jgetStr v "targetvolume"))
        (parseIntJS (jgetStr v "actualvolume"))
        (jgetStr v "muteenabled" == some "true")))
  else .ok none

/-- The `art` extraction of the now-playing block: a truthy string is
taken as-is, otherwise a truthy `_` text member is taken. -/
def artOf (np : JVal) : Option String :=
  match jget np "art" with
  | none => none
  | some (.str s) => if s = "" then none else some s
  | some x =>
    match jget x "_" with
    | some (.str s) => if s = "" then none else some s
    | _ => none

/-- The `nowPlayingUpdated` block; a missing `nowPlaying` child or a
missing attribute map throws. -/
def nowPlayingBlock (u : JVal) : Except Unit (Option PushEvent) :=
  let nu := jget u "nowPlayingUpdated"
  if jsTruthy nu then
    match nu.bind (fun x => jget x "nowPlaying") with
    | none => .error ()
    | some np =>
      match jget np "$" with
      | none => .error ()
      | some d =>
        .ok (some (.nowPlayingUpdated
          ⟨jgetStr d "source", jgetStr d "sourceAccount",
           jgetStr np "track", jgetStr np "artist", jgetStr np "album",
           jgetStr np "stationName", artOf np,
           jgetStr np "playStatus", jgetStr np "shuffleSetting",
           jgetStr np "repeatSetting"⟩))
  else .ok none

/-- One entry of the `presetsUpdated` list: `p.$.id` throws without an
attribute map, `p.ContentItem?.$.source` throws when `ContentItem` is
present without one. -/
def presetLiteItem (p : JVal) : Option PresetLite :=
  match jget p "$" with
  | none => none
  | some d =>
    match jget p "ContentItem" with
    | none => some ⟨parseIntJS (jgetStr d "id"), none, none⟩
    | some ci =>
      match jget ci "$" with
      | none => none
      | some cd =>
        some ⟨parseIntJS (jgetStr d "id"), jgetStr ci "itemName",
              jgetStr cd "source"⟩

/-- The `presetsUpdated` block. -/
def presetsBlock (u : JVal) : Except Unit (Option PushEvent) :=
  let pu := jget u "presetsUpdated"
  if jsTruthy pu then
    match pu.bind (fun x => jget x "presets") with
    | none => .error ()
    | some ps =>
      if jsTruthy (jget ps "preset") then
        match (toItems ((jget ps "preset").getD (.str ""))).mapM presetLiteItem with
        | none => .error ()
        | some l => .ok (some (.presetUpdated l))
      else .ok (some (.presetUpdated []))
  else .ok none

/-- One entry of a zone member list: `m.$.ipaddress` throws without an
attribute map. -/
def zoneMemberItem (m : JVal) : Option ZoneMemberU :=
  match jget m "$" with
  | none => none
  | some d => some ⟨jgetStr d "ipaddress", jgetStr m "_"⟩

/-- The `zoneUpdated` block: `zone` may be absent (optional chaining),
but a present `zone` without an attribute map throws at
`zone?.$.master`. -/
def zoneBlock (u : JVal) : Except Unit (Option PushEvent) :=
  let zu := jget u "zoneUpdated"
  if jsTruthy zu then
    let z := zu.bind (fun x => jget x "zone")
    let memberOpt := z.bind (fun zz => jget zz "member")
    let membersRes : Option (List ZoneMemberU) :=
      if jsTruthy memberOpt then
        (toItems (memberOpt.getD (.str ""))).mapM zoneMemberItem
      else some []
    match membersRes with
    | none => .error ()
    | some ms =>
      match z with
      | none => .ok (some (.zoneUpdated none ms))
      | some zz =>
        match jget zz "$" with
        | none => .error ()
        | some d => .ok (some (.zoneUpdated (jgetStr d "master") ms))
  else .ok none

/-- The `bassUpdated` block. -/
def bassBlock (u : JVal) : Except Unit (Option PushEvent) :=
  let bu := jget u "bassUpdated"
  if jsTruthy bu then
    match bu.bind (fun x => jget x "bass") with
    | none => .error ()
    | some b =>
      .ok (some (.bassUpdated
        (parseIntJS (jgetStr b "targetbass"))
        (parseIntJS (jgetStr b "actualbass"))))
  else .ok none

/-- The `connectionStateUpdated` block: attributes sit on the element
itself, so a missing attribute map throws. -/
def connBlock (u : JVal) : Except Unit (Option PushEvent) :=
  let cu := jget u "connectionStateUpdated"
  if jsTruthy cu then
    match cu.bind (fun x => jget x "$") with
    | none => .error ()
    | some d =>
      .ok (some (.connectionStateUpdated (jgetStr d "state")
        (jgetStr d "up" == some "true")))
  else .ok none

/-- Run the update blocks in program order; a throwing block keeps the
events emitted so far and stops (the surrounding `catch` swallows). -/
def runBlocksAux (u : JVal) :
    List (JVal → Except Unit (Option PushEvent)) → List PushEvent
  | [] => []
  | b :: bs =>
    match b u with
    | .error _ => []
    | .ok none => runBlocksAux u bs
    | .ok (some e) => e :: runBlocksAux u bs

/-- The six update blocks of `handleMessage`, in source order. -/
def pushBlocks : List (JVal → Except Unit (Option PushEvent)) :=
  [volumeBlock, nowPlayingBlock, presetsBlock, zoneBlock, bassBlock, connBlock]

/-- Events emitted by `handleMessage` for one inbound frame, given the
frame's parse result: a parse failure or a falsy `updates` root emits
nothing. -/
def handleMessage (parsed : Except String JVal) : List PushEvent :=
  match parsed with
  | .error _ => []
  | .ok r =>
    if jsTruthy (jget r "updates") then
      runBlocksAux ((jget r "updates").getD (.str "")) pushBlocks
    else []

/-! ## EventStream connection machine (src/soundtouchWebSocket.ts)

State of one `SoundTouchWebSocket` instance, plus the sockets, timers
and ping intervals it has ever created, tracked by identity so that
"at most one in flight" is a provable statement, not a modelling
artifact. Environment events (socket open/close/error, timer firing,
synchronous constructor failure) drive the machine. -/

/-- Lifecycle of one created WebSocket object. -/
inductive SockSt where
  | connecting : SockSt
  | opened : SockSt
  | closingByClient : SockSt
  | closed : SockSt
deriving DecidableEq

/-- The full instance state: `sockets` records every socket ever
constructed with its current status; `timers` and `pings` are the
pending reconnect timeouts and running ping intervals; `ws`,
`reconnectTimer`, `pingInterval`, `isConnecting`, `shouldReconnect`
are the instance fields of the source class. -/
structure WSState where
  sockets : List (Nat × SockSt)
  ws : Option Nat
  timers : List Nat
  reconnectTimer : Option Nat
  pings : List Nat
  pingInterval : Option Nat
  isConnecting : Bool
  shouldReconnect : Bool
  nextId : Nat
deriving DecidableEq

/-- Fresh instance: everything null/false as in the field initializers. -/
def wsInit : WSState :=
  ⟨[], none, [], none, [], none, false, true, 0⟩

/-- Events driving the machine. `connect` and `disconnect` are the
public API; `ctorOk` tells whether `new WebSocket(...)` constructs or
throws synchronously; socket and timer events carry the identity they
fire on; `message` carries the frame's parse result. -/
inductive WSEv where
  | connect (ctorOk : Bool)
  | disconnect : WSEv
  | sockOpen (sid : Nat)
  | sockClose (sid : Nat)
  | sockError (sid : Nat)
  | timerFire (tid : Nat) (ctorOk : Bool)
  | message (frame : Except String JVal)

/-- Status update of one socket in the ledger. -/
def setSock (sockets : List (Nat × SockSt)) (sid : Nat) (st : SockSt) :
    List (Nat × SockSt) :=
  sockets.map (fun p => if p.1 = sid then (p.1, st) else p)

/-- Model of `scheduleReconnect`: bail out unless reconnection is allowed and
no timer is pending; otherwise create a timer and store it. -/
def doScheduleReconnect (st : WSState) : WSState :=
  if !st.shouldReconnect || st.reconnectTimer.isSome then st
  else
    { st with
      reconnectTimer := some st.nextId,
      timers := st.nextId :: st.timers,
      nextId := st.nextId + 1 }

/-- Model of `cleanup`: clear the ping interval and the reconnect timer fields,
cancelling the timers they hold. -/
def doCleanup (st : WSState) : WSState :=
  let st1 :=
    match st.pingInterval with
    | some p => { st with pings := st.pings.erase p, pingInterval := none }
    | none => st
  match st1.reconnectTimer with
  | some t => { st1 with timers := st1.timers.erase t, reconnectTimer := none }
  | none => st1

/-- Model of `connect()`: no-op when the socket field is set or a connect is in
progress; otherwise mark connecting, allow reconnection, and either
construct a socket or (on a synchronous constructor failure) clear the
connecting flag and schedule a reconnect. -/
def doConnect (st : WSState) (ctorOk : Bool) : WSState :=
  if st.ws.isSome || st.isConnecting then st
  else
    let st := { st with isConnecting := true, shouldReconnect := true }
    if ctorOk then
      { st with
        ws := some st.nextId,
        sockets := (st.nextId, SockSt.connecting) :: st.sockets,
        nextId := st.nextId + 1 }
    else
      doScheduleReconnect { st with isConnecting := false }

/-- The `open` handler: clear the connecting flag and start the ping
interval (overwriting, without clearing, any previous one). -/
def onOpen (st : WSState) : WSState :=
  let st := { st with isConnecting := false }
  { st with
    pings := st.nextId :: st.pings,
    pingInterval := some st.nextId,
    nextId := st.nextId + 1 }

/-- The `close` handler: clear the connecting flag, run `cleanup`, and
schedule a reconnect (guarded by `shouldReconnect`). -/
def onClose (st : WSState) : WSState :=
  doScheduleReconnect (doCleanup { st with isConnecting := false })

/-- One step of the machine. Socket events fire only on sockets in a
status that can still emit them; a pending timer fires only if it is
the one the field holds (no other pending timer can exist); the
message handler touches no connection state. -/
def wsStep (st : WSState) : WSEv → WSState
  | .connect ctorOk => doConnect st ctorOk
  | .disconnect =>
    let st := doCleanup { st with shouldReconnect := false }
    match st.ws with
    | some sid =>
      { st with ws := none, sockets := setSock st.sockets sid .closingByClient }
    | none => st
  | .sockOpen sid =>
    if st.sockets.lookup sid = some SockSt.connecting then
      onOpen { st with sockets := setSock st.sockets sid .opened }
    else st
  | .sockClose sid =>
    match st.sockets.lookup sid with
    | some SockSt.connecting | some SockSt.opened | some SockSt.closingByClient =>
      onClose { st with sockets := setSock st.sockets sid .closed }
    | _ => st
  | .sockError _ => st
  | .timerFire tid ctorOk =>
    if st.timers.contains tid then
      doConnect
        { st with
          timers := st.timers.erase tid,
          reconnectTimer := none,
          ws := none } ctorOk
    else st
  | .message _ => st

/-- Run the machine over an event sequence. -/
def wsRun (st : WSState) (evs : List WSEv) : WSState :=
  evs.foldl wsStep st

/-- Sockets still in the connecting phase: connection attempts in
flight. -/
def connectingCount (st : WSState) : Nat :=
  (st.sockets.filter (fun p => p.2 = SockSt.connecting)).length

/-- Sockets constructed and not yet closed or being closed. -/
def liveSocketCount (st : WSState) : Nat :=
  (st.sockets.filter
    (fun p => p.2 = SockSt.connecting || p.2 = SockSt.opened)).length

/-- Recognizes the explicit `connect()` API event. -/
def isConnectEv : WSEv → Bool
  | .connect _ => true
  | _ => false

/-- The reachable-state invariant: the pending reconnect timers are
exactly the one held by the `reconnectTimer` field, if any. -/
def WSTimerInv (st : WSState) : Prop :=
  st.timers = st.reconnectTimer.toList

/-- After `disconnect()`: reconnection disallowed and no pending
timer. -/
def NoAuto (st : WSState) : Prop :=
  st.shouldReconnect = false ∧ st.timers = []

/-! ## Machine invariant lemmas -/

theorem wsRun_cons (st : WSState) (e : WSEv) (rest : List WSEv) :
    wsRun st (e :: rest) = wsRun (wsStep st e) rest := rfl

theorem doCleanup_fields (st : WSState) :
    (doCleanup st).sockets = st.sockets ∧
    (doCleanup st).ws = st.ws ∧
    (doCleanup st).isConnecting = st.isConnecting ∧
    (doCleanup st).shouldReconnect = st.shouldReconnect := by
  unfold doCleanup
  rcases hp : st.pingInterval <;> rcases hr : st.reconnectTimer <;> simp [hp, hr]

theorem wsTimerInv_init : WSTimerInv wsInit := rfl

theorem wsTimerInv_doScheduleReconnect {st : WSState} (h : WSTimerInv st) :
    WSTimerInv (doScheduleReconnect st) := by
  unfold doScheduleReconnect
  split
  · exact h
  · rename_i hc
    have h2 : st.reconnectTimer = none := by
      cases hr : st.reconnectTimer with
      | none => rfl
      | some t => exact absurd (by simp [hr]) hc
    rw [WSTimerInv] at h
    rw [h2] at h
    simp [WSTimerInv, h, h2]

theorem wsTimerInv_doCleanup {st : WSState} (h : WSTimerInv st) :
    (doCleanup st).timers = [] ∧ (doCleanup st).reconnectTimer = none := by
  rw [WSTimerInv] at h
  unfold doCleanup
  rcases hp : st.pingInterval <;> rcases hr : st.reconnectTimer <;>
    simp [hp, hr, hr ▸ h]

theorem wsTimerInv_doConnect {st : WSState} (h : WSTimerInv st) (b : Bool) :
    WSTimerInv (doConnect st b) := by
  unfold doConnect
  split
  · exact h
  · cases b with
    | true => simpa [WSTimerInv] using h
    | false =>
      refine wsTimerInv_doScheduleReconnect ?_
      simpa [WSTimerInv] using h

theorem wsTimerInv_onClose {st : WSState} (h : WSTimerInv st) :
    WSTimerInv (onClose st) := by
  have h' : WSTimerInv {st with isConnecting := false} := by
    simpa [WSTimerInv] using h
  have hc := wsTimerInv_doCleanup h'
  rw [onClose]
  refine wsTimerInv_doScheduleReconnect ?_
  rw [WSTimerInv, hc.1, hc.2]
  rfl

theorem wsTimerInv_step {st : WSState} (h : WSTimerInv st) (e : WSEv) :
    WSTimerInv (wsStep st e) := by
  cases e with
  | connect b => exact wsTimerInv_doConnect h b
  | disconnect =>
    have h' : WSTimerInv {st with shouldReconnect := false} := by
      simpa [WSTimerInv] using h
    have hc := wsTimerInv_doCleanup h'
    rw [wsStep]
    rcases hw : (doCleanup {st with shouldReconnect := false}).ws with _ | sid <;>
      simp [hw, WSTimerInv, hc.1, hc.2]
  | sockOpen sid =>
    rw [wsStep]
    split
    · simpa [WSTimerInv, onOpen] using h
    · exact h
  | sockClose sid =>
    rw [wsStep]
    split
    · exact wsTimerInv_onClose (by simpa [WSTimerInv] using h)
    · exact wsTimerInv_onClose (by simpa [WSTimerInv] using h)
    · exact wsTimerInv_onClose (by simpa [WSTimerInv] using h)
    · exact h
  | sockError sid => exact h
  | timerFire tid b =>
    rw [wsStep]
    split
    · rename_i hin
      refine wsTimerInv_doConnect ?_ b
      rw [WSTimerInv] at h ⊢
      rcases hr : st.reconnectTimer with _ | t
      · rw [hr] at h
        simp [h] at hin
      · rw [hr] at h
        have htt : tid = t := by
          rw [h] at hin
          simpa using hin
        subst htt
        simp [h, Option.toList, List.erase_cons_head]
    · exact h
  | message f => exact h

theorem wsTimerInv_run (evs : List WSEv) :
    ∀ st : WSState, WSTimerInv st → WSTimerInv (wsRun st evs) := by
  induction evs with
  | nil => intro st h; exact h
  | cons e rest ih =>
    intro st h
    rw [wsRun_cons]
    exact ih (wsStep st e) (wsTimerInv_step h e)

theorem noAuto_doScheduleReconnect {st : WSState}
    (h : st.shouldReconnect = false) : doScheduleReconnect st = st := by
  unfold doScheduleReconnect
  rw [if_pos]
  rw [h]
  rfl

theorem noAuto_doCleanup {st : WSState} (h : NoAuto st) : NoAuto (doCleanup st) := by
  obtain ⟨h1, h2⟩ := h
  unfold doCleanup
  rcases hp : st.pingInterval <;> rcases hr : st.reconnectTimer <;>
    simp_all [NoAuto]

theorem noAuto_onClose {st : WSState} (h : NoAuto st) :
    NoAuto (onClose st) ∧ (onClose st).sockets = st.sockets := by
  have h' : NoAuto {st with isConnecting := false} := ⟨h.1, h.2⟩
  have hc := noAuto_doCleanup h'
  have hf := doCleanup_fields {st with isConnecting := false}
  rw [onClose, noAuto_doScheduleReconnect hc.1]
  exact ⟨hc, hf.1⟩

theorem noAuto_step {st : WSState} (h : NoAuto st) (e : WSEv)
    (he : isConnectEv e = false) :
    NoAuto (wsStep st e) ∧ (wsStep st e).sockets.length = st.sockets.length := by
  cases e with
  | connect b => simp [isConnectEv] at he
  | disconnect =>
    have h' : NoAuto {st with shouldReconnect := false} := ⟨rfl, h.2⟩
    have hc := noAuto_doCleanup h'
    have hf := doCleanup_fields {st with shouldReconnect := false}
    rw [wsStep]
    rcases hw : (doCleanup {st with shouldReconnect := false}).ws with _ | sid
    · exact ⟨hc, by rw [hf.1]⟩
    · refine ⟨⟨hc.1, hc.2⟩, ?_⟩
      simp [setSock, hf.1]
  | sockOpen sid =>
    rw [wsStep]
    split
    · refine ⟨⟨h.1, h.2⟩, ?_⟩
      simp [onOpen, setSock]
    · exact ⟨h, rfl⟩
  | sockClose sid =>
    rw [wsStep]
    split
    · have hco := noAuto_onClose
        (show NoAuto {st with sockets := setSock st.sockets sid SockSt.closed}
          from ⟨h.1, h.2⟩)
      exact ⟨hco.1, by rw [hco.2]; simp [setSock]⟩
    · have hco := noAuto_onClose
        (show NoAuto {st with sockets := setSock st.sockets sid SockSt.closed}
          from ⟨h.1, h.2⟩)
      exact ⟨hco.1, by rw [hco.2]; simp [setSock]⟩
    · have hco := noAuto_onClose
        (show NoAuto {st with sockets := setSock st.sockets sid SockSt.closed}
          from ⟨h.1, h.2⟩)
      exact ⟨hco.1, by rw [hco.2]; simp [setSock]⟩
    · exact ⟨h, rfl⟩
  | sockError sid => exact ⟨h, rfl⟩
  | timerFire tid b =>
    rw [wsStep]
    split
    · rename_i hin
      rw [h.2] at hin
      simp at hin
    · exact ⟨h, rfl⟩
  | message f => exact ⟨h, rfl⟩

theorem noAuto_run (evs : List WSEv) :
    ∀ st : WSState, NoAuto st → (∀ e ∈ evs, isConnectEv e = false) →
    NoAuto (wsRun st evs) ∧ (wsRun st evs).sockets.length = st.sockets.length := by
  induction evs with
  | nil => intro st h _; exact ⟨h, rfl⟩
  | cons e rest ih =>
    intro st h he
    have h1 := noAuto_step h e (he e (by simp))
    have h2 := ih (wsStep st e) h1.1 (fun x hx => he x (by simp [hx]))
    rw [wsRun_cons]
    exact ⟨h2.1, by rw [h2.2, h1.2]⟩

theorem noAuto_disconnect {st : WSState} (h : WSTimerInv st) :
    NoAuto (wsStep st WSEv.disconnect) := by
  have h' : WSTimerInv {st with shouldReconnect := false} := by
    simpa [WSTimerInv] using h
  have hc := wsTimerInv_doCleanup h'
  have hf := doCleanup_fields {st with shouldReconnect := false}
  rw [wsStep]
  rcases hw : (doCleanup {st with shouldReconnect := false}).ws with _ | sid
  · exact ⟨by rw [hf.2.2.2], hc.1⟩
  · exact ⟨by simp [hf.2.2.2], by simp [hc.1]⟩

theorem jsRound_eq_round (q : ℚ) : jsRound q = round q := by
  rw [round_eq, jsRound]

theorem encodeVolumeLevel_high {q : ℚ} (h : 100 < q) :
    encodeVolumeLevel q = 100 := by
  have h1 : (100 : ℤ) ≤ jsRound q := by
    rw [jsRound, Int.le_floor]
    push_cast
    linarith
  rw [encodeVolumeLevel]
  omega

theorem encodeVolumeLevel_low {q : ℚ} (h : q < 0) :
    encodeVolumeLevel q = 0 := by
  have h1 : jsRound q ≤ 0 := by
    have : jsRound q < 1 := by
      rw [jsRound, Int.floor_lt]
      push_cast
      linarith
    omega
  rw [encodeVolumeLevel]
  omega

theorem encodeVolumeLevel_inRange {q : ℚ} (h0 : 0 ≤ q) (h1 : q ≤ 100) :
    encodeVolumeLevel q = jsRound q := by
  have hlo : (0 : ℤ) ≤ jsRound q := by
    rw [jsRound, Int.le_floor]
    push_cast
    linarith
  have hhi : jsRound q ≤ 100 := by
    have : jsRound q < 101 := by
      rw [jsRound, Int.floor_lt]
      push_cast
      linarith
    omega
  rw [encodeVolumeLevel]
  omega


/-! ## Claims -/

/-- C1: for every numeric input level, `setVolume` POSTs exactly one
request to `/volume` whose body carries `round(level)` clamped into
[0,100]: inputs above 100 encode as 100, inputs below 0 encode as 0,
and in-range inputs encode as their nearest integer (ties upward). -/
theorem C1_setVolume_rounds_and_clamps (net : Net) (q : ℚ) :
    ((setVolumeRun net q).1 =
      [⟨.POST, "/volume",
        some ("<volume>" ++ toString (encodeVolumeLevel q) ++ "</volume>")⟩]) ∧
    (100 < q → encodeVolumeLevel q = 100) ∧
    (q < 0 → encodeVolumeLevel q = 0) ∧
    (0 ≤ q → q ≤ 100 →
      encodeVolumeLevel q = jsRound q ∧ |(jsRound q : ℚ) - q| ≤ 1 / 2) := by
  refine ⟨?_, fun h => encodeVolumeLevel_high h, fun h => encodeVolumeLevel_low h,
    fun h0 h1 => ⟨encodeVolumeLevel_inRange h0 h1, ?_⟩⟩
  · rw [setVolumeRun]
    rcases net ⟨.POST, "/volume", some (setVolumeBody q)⟩ <;> rfl
  · rw [jsRound_eq_round, abs_sub_comm]
    exact abs_sub_round q

/-- C1 witness: input 150 encodes as 100 and input −5 encodes as 0. -/
theorem C1_witness :
    ((100 : ℚ) < 150 ∧ encodeVolumeLevel 150 = 100) ∧
    ((-5 : ℚ) < 0 ∧ encodeVolumeLevel (-5) = 0) :=
  ⟨⟨by norm_num,
    (C1_setVolume_rounds_and_clamps (fun _ => .ok (.obj [])) 150).2.1 (by norm_num)⟩,
   ⟨by norm_num,
    (C1_setVolume_rounds_and_clamps (fun _ => .ok (.obj [])) (-5)).2.2.1 (by norm_num)⟩⟩

/-- C2: `pressKey` always issues the press-phase POST to `/key` first;
when the press succeeds the trace is exactly press-then-release for
the same key (the release issued only after the press completed, as
the trace is a function of the press's response), and when the press
fails the release is never sent. -/
theorem C2_pressKey_two_phase (net : Net) (key : String) :
    ((pressKeyRun net key).1.head? = some (pressReq key)) ∧
    (exOk (net (pressReq key)) = true →
      (pressKeyRun net key).1 = [pressReq key, releaseReq key]) ∧
    (exOk (net (pressReq key)) = false →
      (pressKeyRun net key).1 = [pressReq key]) := by
  rw [pressKeyRun]
  rcases hp : net (pressReq key) with e | v
  · simp [exOk, hp]
  · rcases hr : net (releaseReq key) with e2 | v2 <;> simp [exOk, hp]

/-- C2 witness: with an always-succeeding network, pressing PLAY issues
exactly the press request followed by the release request. -/
theorem C2_witness :
    exOk ((fun _ => Except.ok (JVal.obj []) : Net) (pressReq "PLAY")) = true ∧
    (pressKeyRun (fun _ => Except.ok (JVal.obj [])) "PLAY").1 =
      [pressReq "PLAY", releaseReq "PLAY"] :=
  ⟨rfl, (C2_pressKey_two_phase (fun _ => Except.ok (JVal.obj [])) "PLAY").2.1 rfl⟩

/-- C3: a push frame that fails to parse produces zero emitted events,
and the message handler leaves the connection machine's state exactly
as it was (no transition, no reconnect scheduled). -/
theorem C3_malformed_frame_dropped (st : WSState) (err : String) :
    handleMessage (.error err) = [] ∧
    wsStep st (.message (.error err)) = st :=
  ⟨rfl, rfl⟩

/-- C4: `setMute(m)` first issues the `/volume` GET; when the decoded
mute flag already equals `m` it issues nothing further (zero MUTE
toggles), and when it differs it issues exactly one MUTE key toggle
(one press-phase `/key` request, paired with its release). -/
theorem C4_setMute_toggle_guard (net : Net) (m : Bool) (j : JVal) (v : VolumeT)
    (hnet : net volumeGetReq = .ok j) (hdec : decodeVolume j = some v) :
    ((setMuteRun net m).1.head? = some volumeGetReq) ∧
    (v.muteenabled = m →
      (setMuteRun net m).1 = [volumeGetReq] ∧
      mutePressCount (setMuteRun net m).1 = 0) ∧
    (v.muteenabled ≠ m → mutePressCount (setMuteRun net m).1 = 1) := by
  rw [setMuteRun, hnet]
  simp only [hdec]
  by_cases hm : v.muteenabled = m
  · simp only [hm]
    refine ⟨by simp, fun _ => ⟨by simp, ?_⟩, fun hne => absurd rfl hne⟩
    have : volumeGetReq ≠ pressReq "MUTE" := by decide
    simp [mutePressCount, this]
  · simp only [if_pos (by simpa using hm)]
    have hvol : volumeGetReq ≠ pressReq "MUTE" := by decide
    have hrel : releaseReq "MUTE" ≠ pressReq "MUTE" := by decide
    refine ⟨by simp, fun he => absurd he hm, fun _ => ?_⟩
    rw [pressKeyRun]
    rcases net (pressReq "MUTE") with e | w
    · simp [mutePressCount, hvol]
    · rcases net (releaseReq "MUTE") with e2 | w2 <;>
        simp [mutePressCount, hvol, hrel]

/-- C4 witness: current mute is false, requested true — exactly one
MUTE toggle press is issued after the volume query. -/
theorem C4_witness :
    ((fun r => if r = volumeGetReq
        then Except.ok (JVal.obj [("volume", JVal.obj [("muteenabled", JVal.str "false")])])
        else Except.ok (JVal.obj []) : Net) volumeGetReq =
      .ok (JVal.obj [("volume", JVal.obj [("muteenabled", JVal.str "false")])])) ∧
    (decodeVolume (JVal.obj [("volume", JVal.obj [("muteenabled", JVal.str "false")])]) =
      some ⟨none, none, false⟩) ∧
    mutePressCount (setMuteRun (fun r => if r = volumeGetReq
        then Except.ok (JVal.obj [("volume", JVal.obj [("muteenabled", JVal.str "false")])])
        else Except.ok (JVal.obj [])) true).1 = 1 :=
  ⟨by simp, rfl,
   (C4_setMute_toggle_guard
     (fun r => if r = volumeGetReq
        then Except.ok (JVal.obj [("volume", JVal.obj [("muteenabled", JVal.str "false")])])
        else Except.ok (JVal.obj []))
     true
     (JVal.obj [("volume", JVal.obj [("muteenabled", JVal.str "false")])])
     ⟨none, none, false⟩
     (by simp) rfl).2.2 (by simp)⟩

/-- C5 counterexample: a service advertising only the IPv6 address
`fe80::1` under hostname `speaker.local` is registered with the IPv6
address as its host — the advertised hostname is never used, refuting
the claimed hostname fallback. -/
theorem C5_counterexample :
    (handleServiceUp []
        ⟨"Speaker", "speaker.local", some ["fe80::1"], some 8090, none⟩).2 =
      some ⟨"Speaker", "fe80::1", 8090, none⟩ ∧
    ("fe80::1" : String) ≠ "speaker.local" := by
  constructor
  · decide
  · decide

/-- C5 (amended): discovery skips a service advertising no addresses
(no hostname fallback); from a non-empty address list it selects the
first colon-free (IPv4-shaped) address when one is present, and
otherwise falls back to the first advertised address, not the
hostname; both `handleServiceUp` and the `discoverOnce` callback use
this selection. -/
theorem C5_address_selection (devs : List (String × DiscoveredDevice)) (s : Service) :
    (s.addresses = none → handleServiceUp devs s = (devs, none)) ∧
    (s.addresses = some [] → handleServiceUp devs s = (devs, none)) ∧
    (∀ a rest x, (a :: rest).find? (fun y => !(containsChar y ':')) = some x →
      x ≠ "" → selectHost (a :: rest) = x) ∧
    (∀ a rest, (a :: rest).find? (fun y => !(containsChar y ':')) = none →
      selectHost (a :: rest) = a) ∧
    (∀ a rest d, s.addresses = some (a :: rest) →
      (handleServiceUp devs s).2 = some d → d.host = selectHost (a :: rest)) ∧
    (∀ a rest, s.addresses = some (a :: rest) →
      discoverOnceStep [] s =
        [⟨s.name, selectHost (a :: rest), jsOrPort s.port, s.mac⟩]) := by
  refine ⟨fun h => by rw [handleServiceUp, h], fun h => by rw [handleServiceUp, h],
    ?_, ?_, ?_, ?_⟩
  · intro a rest x hf hx
    rw [selectHost, hf]
    exact if_neg hx
  · intro a rest hf
    rw [selectHost, hf]
    rfl
  · intro a rest d hs hout
    rw [handleServiceUp, hs] at hout
    dsimp only at hout
    split at hout
    · exact absurd hout (by simp)
    · injection hout with h3
      rw [← h3]
  · intro a rest hs
    rw [discoverOnceStep, hs]
    rfl

/-- C5 witness: a sole IPv4-shaped address is selected as the host. -/
theorem C5_witness :
    ((["10.0.0.5"].find? (fun y => !(containsChar y ':'))) = some "10.0.0.5") ∧
    ("10.0.0.5" : String) ≠ "" ∧
    selectHost ["10.0.0.5"] = "10.0.0.5" :=
  ⟨by decide, by decide,
   (C5_address_selection [] ⟨"n", "h", none, none, none⟩).2.2.1
     "10.0.0.5" [] "10.0.0.5" (by decide) (by decide)⟩

/-- C6 counterexample: a content item with source, type, location,
sourceAccount and name all present does not round-trip: `playContent`
never encodes the `type` attribute, so decoding the `/select` payload
yields `type = none`. -/
theorem C6_counterexample :
    decodeSelectPayload
        (playContentObj "SPOTIFY" "/playback/container/abc" "user1" "My List") ≠
      some ⟨some "SPOTIFY", some "tracklisturl", some "/playback/container/abc",
            some "user1", some true, some "My List"⟩ := by
  decide

/-- C6 (amended): for every content item whose source, location,
sourceAccount and name are present (name non-empty) and whose `type`
is absent and presetable flag true, encoding via `playContent` and
decoding with the now-playing/preset ContentItem decoder yields the
original item back; the `type` field is not encoded and so cannot
survive a round trip. -/
theorem C6_roundtrip_without_type (src loc acc nm : String) (h : nm ≠ "") :
    decodeSelectPayload (playContentObj src loc acc nm) =
      some ⟨some src, none, some loc, some acc, some true, some nm⟩ := by
  rw [playContentObj, if_neg h]
  rfl

/-- C6 witness: a concrete typeless item round-trips. -/
theorem C6_witness :
    ("My List" : String) ≠ "" ∧
    decodeSelectPayload (playContentObj "SPOTIFY" "loc1" "acct" "My List") =
      some ⟨some "SPOTIFY", none, some "loc1", some "acct", some true, some "My List"⟩ :=
  ⟨by decide, C6_roundtrip_without_type "SPOTIFY" "loc1" "acct" "My List" (by decide)⟩

/-- C7 counterexample: a reachable run with more than one connection
attempt in flight. A synchronous constructor failure leaves a
reconnect timer pending; a manual `connect()` then succeeds and opens;
the stale timer fires, nulls the socket field (abandoning the open
socket) and starts a new attempt; the abandoned socket's remote close
schedules another timer, whose firing starts a second concurrent
attempt: two sockets are simultaneously in the connecting phase. -/
theorem C7_counterexample :
    connectingCount (wsRun wsInit
      [WSEv.connect false, WSEv.connect true, WSEv.sockOpen 1,
       WSEv.timerFire 0 true, WSEv.sockClose 1, WSEv.timerFire 4 true]) = 2 := by
  decide

/-- C7 (amended): in every reachable state at most one pending
reconnect timer exists, and `connect()` is a no-op whenever the socket
field is set or a connect is marked in progress (which covers the
ordinary Connecting and Connected states); but "at most one connection
attempt in flight" does not hold in all reachable states (see the
counterexample). -/
theorem C7_single_timer_and_connect_noop :
    (∀ evs : List WSEv, (wsRun wsInit evs).timers.length ≤ 1) ∧
    (∀ (st : WSState) (b : Bool), (st.ws.isSome || st.isConnecting) = true →
      wsStep st (.connect b) = st) := by
  constructor
  · intro evs
    have h := wsTimerInv_run evs wsInit wsTimerInv_init
    rw [WSTimerInv] at h
    rw [h]
    rcases (wsRun wsInit evs).reconnectTimer <;> simp
  · intro st b h
    rw [wsStep, doConnect, if_pos h]

/-- C7 witness: while a connect is in progress, a second `connect()`
leaves the state untouched. -/
theorem C7_witness :
    (((wsRun wsInit [WSEv.connect true]).ws.isSome ||
        (wsRun wsInit [WSEv.connect true]).isConnecting) = true) ∧
    wsStep (wsRun wsInit [WSEv.connect true]) (.connect false) =
      wsRun wsInit [WSEv.connect true] :=
  ⟨by decide, C7_single_timer_and_connect_noop.2 _ false (by decide)⟩

/-- C8: after `disconnect()` the pending reconnect timer (if any) is
cancelled, and over any subsequent event sequence containing no
explicit `connect()` call, no reconnect timer ever becomes pending
again and no new socket is ever constructed — no implicit
reconnection happens. -/
theorem C8_disconnect_is_terminal (pre evs : List WSEv)
    (h : ∀ e ∈ evs, isConnectEv e = false) :
    (wsStep (wsRun wsInit pre) .disconnect).timers = [] ∧
    (wsRun (wsStep (wsRun wsInit pre) .disconnect) evs).timers = [] ∧
    (wsRun (wsStep (wsRun wsInit pre) .disconnect) evs).sockets.length =
      (wsStep (wsRun wsInit pre) .disconnect).sockets.length := by
  have hinv := wsTimerInv_run pre wsInit wsTimerInv_init
  have hna := noAuto_disconnect hinv
  have hrun := noAuto_run evs _ hna h
  exact ⟨hna.2, hrun.1.2, hrun.2⟩

/-- C8 witness: connect, open, disconnect, then a close, an error and
a stale timer event — no timer pending and no new socket. -/
theorem C8_witness :
    (∀ e ∈ ([WSEv.sockClose 0, WSEv.sockError 0, WSEv.timerFire 1 true] : List WSEv),
      isConnectEv e = false) ∧
    (wsRun (wsStep (wsRun wsInit [WSEv.connect true, WSEv.sockOpen 0]) .disconnect)
      [WSEv.sockClose 0, WSEv.sockError 0, WSEv.timerFire 1 true]).timers = [] ∧
    (wsRun (wsStep (wsRun wsInit [WSEv.connect true, WSEv.sockOpen 0]) .disconnect)
      [WSEv.sockClose 0, WSEv.sockError 0, WSEv.timerFire 1 true]).sockets.length =
      (wsStep (wsRun wsInit [WSEv.connect true, WSEv.sockOpen 0]) .disconnect).sockets.length :=
  ⟨by decide,
   (C8_disconnect_is_terminal [WSEv.connect true, WSEv.sockOpen 0]
     [WSEv.sockClose 0, WSEv.sockError 0, WSEv.timerFire 1 true] (by decide)).2.1,
   (C8_disconnect_is_terminal [WSEv.connect true, WSEv.sockOpen 0]
     [WSEv.sockClose 0, WSEv.sockError 0, WSEv.timerFire 1 true] (by decide)).2.2⟩

/-- C9 counterexample: `connect()` called right after a
`disconnect()` issued while still Connecting is swallowed by the
`isConnecting` guard: the reconnect-allowed flag stays false and no
new socket is opened — refuting "every call to connect() sets the
reconnect-allowed flag to true". -/
theorem C9_counterexample :
    (wsRun wsInit [WSEv.connect true, WSEv.disconnect, WSEv.connect true]).shouldReconnect
        = false ∧
    (wsRun wsInit [WSEv.connect true, WSEv.disconnect, WSEv.connect true]).sockets.length
        = 1 := by
  decide

/-- C9 (amended): a `connect()` call that passes the idle guard (no
socket stored and no connect in progress) always sets the
reconnect-allowed flag back to true, so the state reached by
`disconnect()` is terminal only until the next such `connect()`;
a `connect()` arriving while the guard still holds (e.g. immediately
after disconnecting mid-connect, before the socket's close event) is
swallowed and does not re-enable reconnection. -/
theorem C9_connect_reenables_reconnect (st : WSState) (b : Bool)
    (h1 : st.ws = none) (h2 : st.isConnecting = false) :
    (wsStep st (.connect b)).shouldReconnect = true := by
  rw [wsStep, doConnect, if_neg (by simp [h1, h2])]
  dsimp only
  cases b with
  | true => rfl
  | false =>
    show (doScheduleReconnect _).shouldReconnect = true
    simp only [doScheduleReconnect]
    split <;> rfl

/-- C9 witness: from the initial state, `connect()` sets the
reconnect-allowed flag. -/
theorem C9_witness :
    wsInit.ws = none ∧ wsInit.isConnecting = false ∧
    (wsStep wsInit (.connect true)).shouldReconnect = true :=
  ⟨rfl, rfl, C9_connect_reenables_reconnect wsInit true rfl rfl⟩

/-- C10: a `/presets` response whose `presets` element has no `preset`
child decodes to the empty list rather than failing, and a `/sources`
response whose `sources` element has no `sourceItem` child does the
same. -/
theorem C10_empty_lists (jp js pEl sEl : JVal)
    (hp : jget jp "presets" = some pEl) (hp2 : jget pEl "preset" = none)
    (hs : jget js "sources" = some sEl) (hs2 : jget sEl "sourceItem" = none) :
    decodePresetsResp jp = some [] ∧ decodeSourcesResp js = some [] := by
  constructor
  · rw [decodePresetsResp, hp]
    dsimp only
    rw [hp2]
    rfl
  · rw [decodeSourcesResp, hs]
    dsimp only
    rw [hs2]
    rfl

/-- C10 witness: concrete empty `presets` and `sources` responses
decode to empty lists. -/
theorem C10_witness :
    jget (JVal.obj [("presets", JVal.obj [])]) "presets" = some (JVal.obj []) ∧
    jget (JVal.obj []) "preset" = none ∧
    jget (JVal.obj [("sources", JVal.str "")]) "sources" = some (JVal.str "") ∧
    jget (JVal.str "") "sourceItem" = none ∧
    decodePresetsResp (JVal.obj [("presets", JVal.obj [])]) = some [] ∧
    decodeSourcesResp (JVal.obj [("sources", JVal.str "")]) = some [] := by
  refine ⟨rfl, rfl, rfl, rfl, ?_, ?_⟩
  · exact (C10_empty_lists (JVal.obj [("presets", JVal.obj [])])
      (JVal.obj [("sources", JVal.str "")]) (JVal.obj []) (JVal.str "")
      rfl rfl rfl rfl).1
  · exact (C10_empty_lists (JVal.obj [("presets", JVal.obj [])])
      (JVal.obj [("sources", JVal.str "")]) (JVal.obj []) (JVal.str "")
      rfl rfl rfl rfl).2
